import Mathlib

/- Shallow embedding of the shegymz Paystack payment integration:
   the webhook route (src/app/api/webhook/paystack/route.ts), the
   subscribe route (src/app/api/subscribe/route.ts), the Paystack
   service (src/lib/paystack.ts) and the email service
   (src/lib/email.ts).  Network calls (gateway HTTP requests, email
   provider sends) and the HMAC primitive are modelled as oracle
   fields of an environment record; the observable behaviour of a
   route is its HTTP response together with the ordered list of
   external calls it performs. -/

/- Customer block of a webhook payload (PaystackWebhookEvent.data.customer
   in src/lib/paystack.ts). -/
structure Customer where
  first_name : String
  last_name : String
  email : String
  deriving DecidableEq

/- Authorization block of a webhook payload; the whole block is
   optional in the source interface.  Only the fields the route reads
   are kept. -/
structure PaystackAuthorization where
  authorization_code : String
  last4 : String
  card_type : String
  deriving DecidableEq

/- Data block of a webhook payload.  Fields the routes only log
   (id, domain, channel, currency, metadata, ...) are elided.
   gateway_response is an Option to model a JSON field that may be
   absent at runtime; amount is a Nat number of minor units (kobo). -/
structure PaystackWebhookData where
  status : String
  reference : String
  amount : Nat
  gateway_response : Option String
  paid_at : String
  customer : Customer
  authorization : Option PaystackAuthorization
  deriving DecidableEq

/- PaystackWebhookEvent (src/lib/paystack.ts): the parsed event
   envelope, a tag string plus the data block. -/
structure PaystackWebhookEvent where
  event : String
  data : PaystackWebhookData
  deriving DecidableEq

/- Data block of the gateway verification response
   (PaystackVerifyResponse.data in src/lib/paystack.ts); only the
   fields the code reads are kept. -/
structure PaystackVerifyData where
  status : String
  reference : String
  amount : Nat
  deriving DecidableEq

/- Gateway verification HTTP response body: status is the top-level
   boolean and message the top-level message string. -/
structure PaystackVerifyResponse where
  status : Bool
  message : String
  data : PaystackVerifyData
  deriving DecidableEq

/- Return type of verifyPaystackTransaction. -/
structure PaystackVerifyResult where
  success : Bool
  data : Option PaystackVerifyData
  error : Option String
  deriving DecidableEq

/- JS truthiness fallback (s || d) for a possibly-absent string:
   undefined, null and the empty string are falsy. -/
def jsOrOpt (o : Option String) (d : String) : String :=
  match o with
  | none => d
  | some s => if s = "" then d else s

/- verifyPaystackTransaction (src/lib/paystack.ts).  The gateway HTTP
   call is an oracle argument: Except.error models a thrown request
   error (its payload standing for the message extracted from the
   error response), Except.ok a received response body.  The function
   succeeds exactly when the top-level status is true and the
   transaction state is the string success. -/
def verifyPaystackTransaction
    (gatewayResponse : Except String PaystackVerifyResponse) :
    PaystackVerifyResult :=
  match gatewayResponse with
  | Except.ok r =>
    if r.status && r.data.status == "success" then
      { success := true, data := some r.data, error := none }
    else
      { success := false, data := none,
        error := some (jsOrOpt (some r.message) "Payment verification failed") }
  | Except.error e =>
    { success := false, data := none,
      error := some (jsOrOpt (some e) "Failed to verify payment") }

/- verifyPaystackWebhook (src/lib/paystack.ts): the hex HMAC-SHA512
   digest of the raw payload under the secret key, compared to the
   signature header by exact string equality.  The HMAC primitive is
   an oracle argument (hmac key payload). -/
def verifyPaystackWebhook (hmac : String → String → String)
    (secretKey payload signatureHeader : String) : Bool :=
  hmac secretKey payload == signatureHeader

/- Two-digit rendering of the cents part, as toFixed(2) prints it. -/
def twoDigits (cents : Nat) : String :=
  if cents < 10 then "0" ++ Nat.repr cents else Nat.repr cents

/- formatPaystackAmount (src/lib/paystack.ts):
   R followed by (amountInKobo / 100).toFixed(2).  For a nonnegative
   integer input in the float-exact range this is integer division by
   100 with the remainder printed as exactly two decimal digits. -/
def formatPaystackAmount (amountInKobo : Nat) : String :=
  "R" ++ Nat.repr (amountInKobo / 100) ++ "." ++ twoDigits (amountInKobo % 100)

/- PaymentConfirmationEmailData (src/lib/email.ts).  The route always
   supplies subscriptionToken, so it is a plain String here. -/
structure PaymentConfirmationEmailData where
  name : String
  email : String
  amount : String
  paymentDate : String
  subscriptionToken : String
  reference : String
  cardLast4 : Option String
  cardType : Option String
  deriving DecidableEq

/- Argument record of sendPaymentFailedEmail (src/lib/email.ts).  The
   route always supplies a reason, so it is a plain String here. -/
structure PaymentFailedEmailData where
  name : String
  email : String
  amount : String
  reference : String
  reason : String
  deriving DecidableEq

/- SubscriptionData (src/lib/paystack.ts). -/
structure SubscriptionData where
  name : String
  email : String
  phone : String
  bodyGoals : Option String
  referralName : Option String
  deriving DecidableEq

/- SubscriptionEmailData (src/lib/email.ts). -/
structure SubscriptionEmailData where
  name : String
  email : String
  phone : String
  bodyGoals : Option String
  referralName : Option String
  paymentLink : Option String
  deriving DecidableEq

/- One message handed to plunk.emails.send: recipient (the source
   field named to, renamed because to is a reserved token) and
   subject.  The HTML body is pure string templating that no claim
   references; it is elided from the embedding. -/
structure EmailMessage where
  recipient : String
  subject : String
  deriving DecidableEq

/- sendPaymentConfirmationEmail (src/lib/email.ts): attempts the send
   and returns true on success; a provider failure is caught and
   yields false, it is never propagated. -/
def sendPaymentConfirmationEmail
    (send : EmailMessage → Except String Unit)
    (data : PaymentConfirmationEmailData) : Bool :=
  match send { recipient := data.email,
               subject := "Payment Receipt - SheGymz Membership" } with
  | Except.ok _ => true
  | Except.error _ => false

/- sendPaymentReceivedNotification (src/lib/email.ts): admin copy of a
   received payment; adminEmail models process.env.ADMIN_EMAIL with
   the empty string standing for an unset variable. -/
def sendPaymentReceivedNotification
    (adminEmail : String)
    (send : EmailMessage → Except String Unit)
    (data : PaymentConfirmationEmailData) : Bool :=
  match send { recipient := jsOrOpt (some adminEmail) "admin@shegymz.com",
               subject := "Payment Received: " ++ data.name ++ " - " ++ data.amount } with
  | Except.ok _ => true
  | Except.error _ => false

/- sendPaymentFailedEmail (src/lib/email.ts). -/
def sendPaymentFailedEmail
    (send : EmailMessage → Except String Unit)
    (data : PaymentFailedEmailData) : Bool :=
  match send { recipient := data.email,
               subject := "Payment Failed - SheGymz Membership" } with
  | Except.ok _ => true
  | Except.error _ => false

/- sendSubscriptionInitiatedEmail (src/lib/email.ts). -/
def sendSubscriptionInitiatedEmail
    (send : EmailMessage → Except String Unit)
    (data : SubscriptionEmailData) : Bool :=
  match send { recipient := data.email,
               subject := "Welcome to SheGymz - Complete Your Payment" } with
  | Except.ok _ => true
  | Except.error _ => false

/- sendNewSubscriptionNotification (src/lib/email.ts). -/
def sendNewSubscriptionNotification
    (adminEmail : String)
    (send : EmailMessage → Except String Unit)
    (data : SubscriptionEmailData) : Bool :=
  match send { recipient := jsOrOpt (some adminEmail) "admin@shegymz.com",
               subject := "New Subscription: " ++ data.name } with
  | Except.ok _ => true
  | Except.error _ => false

/- External calls a route performs, recorded in order. -/
inductive Effect where
  | callVerifyTransaction (reference : String)
  | callEnableRecurring (authorizationCode : String) (email : String)
  | emailPaymentConfirmation (data : PaymentConfirmationEmailData)
  | emailPaymentReceived (data : PaymentConfirmationEmailData)
  | emailPaymentFailed (data : PaymentFailedEmailData)
  | callInitSubscription (data : SubscriptionData)
  | emailSubscriptionInitiated (data : SubscriptionEmailData)
  | emailNewSubscription (data : SubscriptionEmailData)
  deriving DecidableEq

/- The three JSON response shapes of the webhook route plus the
   success shape of the subscribe route. -/
inductive ResponseBody where
  | errorMsg (error : String)
  | received
  | receivedWithError (error : String)
  | subscribeOk (redirectUrl : Option String) (reference : Option String)
  deriving DecidableEq

structure Response where
  status : Nat
  body : ResponseBody
  deriving DecidableEq

/- A webhook HTTP request: raw body text and the value of the
   x-paystack-signature header when present. -/
structure WebhookRequest where
  body : String
  signature : Option String
  deriving DecidableEq

/- Parsed JSON body of a subscribe request; a field absent from the
   JSON (or null) is none. -/
structure SubscribeBody where
  name : Option String
  email : Option String
  phone : Option String
  bodyGoals : Option String
  referralName : Option String
  deriving DecidableEq

/- Outcome record of initializePaystackSubscription as the subscribe
   route consumes it. -/
structure PaystackInitResult where
  success : Bool
  authorizationUrl : Option String
  reference : Option String
  error : Option String
  deriving DecidableEq

/- Environment: configuration plus one oracle per external call.
   parse models JSON.parse on the raw webhook body followed by the
   field accesses the route performs, none standing for a thrown
   exception (malformed JSON or missing shape); gatewayVerify models
   the gateway verification HTTP call per reference; initOutcome the
   initializePaystackSubscription call; emailSend the provider send;
   formatDate the toLocaleDateString rendering of paid_at. -/
structure Env where
  secretKey : String
  adminEmail : String
  hmac : String → String → String
  parse : String → Option PaystackWebhookEvent
  gatewayVerify : String → Except String PaystackVerifyResponse
  initOutcome : SubscriptionData → PaystackInitResult
  emailSend : EmailMessage → Except String Unit
  formatDate : String → String

/- JS truthiness of a possibly-absent string field. -/
def truthy (o : Option String) : Bool :=
  match o with
  | none => false
  | some s => s != ""

/- The guard in handlePaymentSuccess, literally
   !verification.success || verification.data?.status !== "success". -/
def verificationRejects (v : PaystackVerifyResult) : Bool :=
  !v.success ||
    (match v.data with
     | some d => d.status != "success"
     | none => true)

/- The email data handlePaymentFailed builds, all of it from the
   webhook payload; the reason falls back to a fixed string when
   gateway_response is absent or empty. -/
def failedEmailDataOf (event : PaystackWebhookEvent) : PaymentFailedEmailData :=
  { name := (event.data.customer.first_name ++ " " ++ event.data.customer.last_name).trim,
    email := event.data.customer.email,
    amount := formatPaystackAmount event.data.amount,
    reference := event.data.reference,
    reason := jsOrOpt event.data.gateway_response "Payment could not be processed" }

/- The email data handlePaymentSuccess builds; subscriptionToken is
   authorization?.authorization_code || reference. -/
def confirmationEmailDataOf (env : Env) (event : PaystackWebhookEvent) :
    PaymentConfirmationEmailData :=
  { name := (event.data.customer.first_name ++ " " ++ event.data.customer.last_name).trim,
    email := event.data.customer.email,
    amount := formatPaystackAmount event.data.amount,
    paymentDate := env.formatDate event.data.paid_at,
    subscriptionToken :=
      jsOrOpt (Option.map (fun a => a.authorization_code) event.data.authorization)
        event.data.reference,
    reference := event.data.reference,
    cardLast4 := Option.map (fun a => a.last4) event.data.authorization,
    cardType := Option.map (fun a => a.card_type) event.data.authorization }

/- handlePaymentSuccess (webhook route): re-verifies the transaction
   with the gateway first and returns early unless the re-verification
   succeeds with state success; otherwise optionally enables the
   recurring subscription and fires both confirmation emails,
   discarding the send outcomes (fire and forget in the source). -/
def handlePaymentSuccess (env : Env) (event : PaystackWebhookEvent) : List Effect :=
  let verification := verifyPaystackTransaction (env.gatewayVerify event.data.reference)
  Effect.callVerifyTransaction event.data.reference ::
    (if verificationRejects verification then
      []
    else
      let recurring :=
        match event.data.authorization with
        | some a =>
          if a.authorization_code != "" then
            [Effect.callEnableRecurring a.authorization_code event.data.customer.email]
          else []
        | none => []
      let emailData := confirmationEmailDataOf env event
      let _sent1 := sendPaymentConfirmationEmail env.emailSend emailData
      let _sent2 := sendPaymentReceivedNotification env.adminEmail env.emailSend emailData
      recurring ++ [Effect.emailPaymentConfirmation emailData,
                    Effect.emailPaymentReceived emailData])

/- handlePaymentFailed (webhook route): builds the email data from the
   payload only and fires the payment-failed email, discarding the
   send outcome; the gateway is never consulted on this path. -/
def handlePaymentFailed (env : Env) (event : PaystackWebhookEvent) : List Effect :=
  let emailData := failedEmailDataOf event
  let _sent := sendPaymentFailedEmail env.emailSend emailData
  [Effect.emailPaymentFailed emailData]

/- The switch on event.event in the webhook route:
   subscription.create, subscription.disable and unknown events are
   only logged, so they produce no external calls. -/
def dispatchEvent (env : Env) (event : PaystackWebhookEvent) : List Effect :=
  if event.event == "charge.success" then
    handlePaymentSuccess env event
  else if event.event == "charge.failed" then
    handlePaymentFailed env event
  else
    []

/- POST /api/webhook/paystack: reject with 400 when the signature
   header is absent, reject with 400 when the digest disagrees,
   otherwise parse and dispatch; a processing exception (parse
   failure) is caught and still acknowledged with a 200. -/
def webhookPOST (env : Env) (req : WebhookRequest) : Response × List Effect :=
  match req.signature with
  | none =>
    ({ status := 400, body := ResponseBody.errorMsg "No signature provided" }, [])
  | some sig =>
    if verifyPaystackWebhook env.hmac env.secretKey req.body sig then
      match env.parse req.body with
      | none =>
        ({ status := 200, body := ResponseBody.receivedWithError "Processing error" }, [])
      | some event =>
        ({ status := 200, body := ResponseBody.received }, dispatchEvent env event)
    else
      ({ status := 400, body := ResponseBody.errorMsg "Invalid signature" }, [])

/- POST /api/subscribe: none models a request whose JSON body fails to
   parse (the catch branch); otherwise the three required fields are
   checked for JS truthiness, the gateway initialization is attempted,
   and on success the two onboarding emails are fired and the redirect
   data returned. -/
def subscribePOST (env : Env) (req : Option SubscribeBody) : Response × List Effect :=
  match req with
  | none =>
    ({ status := 500, body := ResponseBody.errorMsg "Failed to initiate subscription" }, [])
  | some b =>
    if !truthy b.name || !truthy b.email || !truthy b.phone then
      ({ status := 400, body := ResponseBody.errorMsg "Missing required fields" }, [])
    else
      let data : SubscriptionData :=
        { name := b.name.getD "", email := b.email.getD "", phone := b.phone.getD "",
          bodyGoals := b.bodyGoals, referralName := b.referralName }
      let result := env.initOutcome data
      if !result.success then
        ({ status := 500,
           body := ResponseBody.errorMsg (jsOrOpt result.error "Failed to initialize payment") },
         [Effect.callInitSubscription data])
      else
        let emailData : SubscriptionEmailData :=
          { name := data.name, email := data.email, phone := data.phone,
            bodyGoals := b.bodyGoals, referralName := b.referralName,
            paymentLink := result.authorizationUrl }
        let _sent1 := sendSubscriptionInitiatedEmail env.emailSend emailData
        let _sent2 := sendNewSubscriptionNotification env.adminEmail env.emailSend emailData
        ({ status := 200,
           body := ResponseBody.subscribeOk result.authorizationUrl result.reference },
         [Effect.callInitSubscription data,
          Effect.emailSubscriptionInitiated emailData,
          Effect.emailNewSubscription emailData])

/- Concrete fixtures used by witnesses and counterexamples. -/

def env0 : Env :=
  { secretKey := "sk_test_abc",
    adminEmail := "",
    hmac := fun _ payload => "h" ++ payload,
    parse := fun _ => none,
    gatewayVerify := fun _ => Except.error "network down",
    initOutcome := fun _ =>
      { success := false, authorizationUrl := none, reference := none, error := none },
    emailSend := fun _ => Except.ok (),
    formatDate := fun s => s }

def ev1 : PaystackWebhookEvent :=
  { event := "charge.success",
    data := { status := "success", reference := "ref1", amount := 39900,
              gateway_response := some "Approved", paid_at := "2024-01-01",
              customer := { first_name := "Ada", last_name := "Lovelace",
                            email := "ada@example.com" },
              authorization := none } }

def ev2 : PaystackWebhookEvent :=
  { event := "charge.failed",
    data := { status := "failed", reference := "ref2", amount := 39900,
              gateway_response := some "", paid_at := "2024-01-02",
              customer := { first_name := "Ada", last_name := "Lovelace",
                            email := "ada@example.com" },
              authorization := none } }

def envSucc : Env := { env0 with parse := fun _ => some ev1 }

def envFail : Env := { env0 with parse := fun _ => some ev2 }

def reqNoSig : WebhookRequest := { body := "x", signature := none }

def reqBadSig : WebhookRequest := { body := "x", signature := some "bad" }

def reqGoodSig : WebhookRequest := { body := "x", signature := some "hx" }

def reqMalformed : WebhookRequest := { body := "not json", signature := some "hnot json" }

/- The two rejection causes of the webhook route. -/
def sigMissingOrInvalid (env : Env) (req : WebhookRequest) : Prop :=
  req.signature = none ∨
    ∃ s, req.signature = some s ∧
      verifyPaystackWebhook env.hmac env.secretKey req.body s = false

/- The gateway re-verification answered with a positive top-level
   status and transaction state success. -/
def goodGateway (env : Env) (reference : String) : Prop :=
  ∃ resp, env.gatewayVerify reference = Except.ok resp ∧
    resp.status = true ∧ resp.data.status = "success"

theorem verificationRejects_false_iff (r : Except String PaystackVerifyResponse) :
    verificationRejects (verifyPaystackTransaction r) = false ↔
      ∃ resp, r = Except.ok resp ∧ resp.status = true ∧ resp.data.status = "success" := by
  cases r with
  | error e => simp [verifyPaystackTransaction, verificationRejects]
  | ok resp =>
    cases hst : resp.status with
    | false => simp [verifyPaystackTransaction, verificationRejects, hst]
    | true =>
      by_cases h2 : resp.data.status = "success"
      · simp [verifyPaystackTransaction, verificationRejects, hst, h2]
      · simp [verifyPaystackTransaction, verificationRejects, hst, h2]

theorem dispatch_success (env : Env) (event : PaystackWebhookEvent)
    (he : event.event = "charge.success") :
    dispatchEvent env event = handlePaymentSuccess env event := by
  simp [dispatchEvent, he]

theorem dispatch_failed (env : Env) (event : PaystackWebhookEvent)
    (he : event.event = "charge.failed") :
    dispatchEvent env event = handlePaymentFailed env event := by
  simp [dispatchEvent, he]

theorem webhookPOST_valid (env : Env) (req : WebhookRequest) (s : String)
    (hs : req.signature = some s)
    (hv : verifyPaystackWebhook env.hmac env.secretKey req.body s = true)
    (event : PaystackWebhookEvent)
    (hp : env.parse req.body = some event) :
    webhookPOST env req =
      ({ status := 200, body := ResponseBody.received }, dispatchEvent env event) := by
  unfold webhookPOST
  rw [hs]
  simp [hv, hp]

theorem twoDigits_length (b : Nat) (hb : b < 100) : (twoDigits b).length = 2 := by
  have h : ∀ c, c < 100 → (twoDigits c).length = 2 := by decide
  exact h b hb

/-- C1: a webhook request whose x-paystack-signature header is missing
or whose signature disagrees with the expected digest of the raw body
is answered with status 400 and triggers no external call: no event
handler runs and no email send is initiated. -/
theorem webhook_rejects_bad_signature_without_processing
    (env : Env) (req : WebhookRequest)
    (h : sigMissingOrInvalid env req) :
    (webhookPOST env req).1.status = 400 ∧ (webhookPOST env req).2 = [] := by
  rcases h with hnone | ⟨s, hs, hbad⟩
  · unfold webhookPOST
    rw [hnone]
    exact ⟨rfl, rfl⟩
  · unfold webhookPOST
    rw [hs]
    simp [hbad]

/-- C1 witness: the concrete request with no signature header is
rejected with status 400 and an empty effect list. -/
theorem webhook_rejects_bad_signature_without_processing_witness :
    (webhookPOST env0 reqNoSig).1.status = 400 ∧ (webhookPOST env0 reqNoSig).2 = [] :=
  webhook_rejects_bad_signature_without_processing env0 reqNoSig (Or.inl rfl)

/-- C6: formatPaystackAmount divides the minor-unit amount by 100 and
renders a fixed two-decimal currency string; in particular
formatPaystackAmount 3990000 = R39900.00, and in general the output is
R, the major units, a dot, and exactly two digits carrying the
remaining minor units. -/
theorem formatPaystackAmount_two_decimals :
    formatPaystackAmount 3990000 = "R39900.00" ∧
      ∀ n : Nat, ∃ major minor : Nat,
        n = 100 * major + minor ∧ minor < 100 ∧
        formatPaystackAmount n = "R" ++ Nat.repr major ++ "." ++ twoDigits minor ∧
        (twoDigits minor).length = 2 := by
  refine ⟨by decide, fun n => ⟨n / 100, n % 100,
    (Nat.div_add_mod n 100).symm, Nat.mod_lt n (by decide), rfl,
    twoDigits_length _ (Nat.mod_lt n (by decide))⟩⟩

/-- C2: for a charge.success webhook event that passes signature
verification, the gateway re-verification is the first external call,
strictly before any confirmation email; a confirmation email (payer
receipt or admin copy) appears in the effect trace only when the
gateway answered with a positive top-level status and transaction
state success, and when the re-verification fails no such email is
sent. -/
theorem charge_success_reverifies_before_confirmation
    (env : Env) (req : WebhookRequest) (s : String) (event : PaystackWebhookEvent)
    (hs : req.signature = some s)
    (hv : verifyPaystackWebhook env.hmac env.secretKey req.body s = true)
    (hp : env.parse req.body = some event)
    (he : event.event = "charge.success") :
    (∃ rest, (webhookPOST env req).2 =
        Effect.callVerifyTransaction event.data.reference :: rest) ∧
    (¬ goodGateway env event.data.reference →
      ∀ d, Effect.emailPaymentConfirmation d ∉ (webhookPOST env req).2 ∧
           Effect.emailPaymentReceived d ∉ (webhookPOST env req).2) ∧
    ((∃ d, Effect.emailPaymentConfirmation d ∈ (webhookPOST env req).2 ∨
           Effect.emailPaymentReceived d ∈ (webhookPOST env req).2) →
      goodGateway env event.data.reference) := by
  have hpost := webhookPOST_valid env req s hs hv event hp
  rw [hpost, dispatch_success env event he]
  by_cases hrej : verificationRejects
      (verifyPaystackTransaction (env.gatewayVerify event.data.reference)) = true
  · refine ⟨⟨[], by simp [handlePaymentSuccess, hrej]⟩, ?_, ?_⟩
    · intro _ d
      constructor <;> simp [handlePaymentSuccess, hrej]
    · rintro ⟨d, hd | hd⟩ <;> simp [handlePaymentSuccess, hrej] at hd
  · have hrejf : verificationRejects
        (verifyPaystackTransaction (env.gatewayVerify event.data.reference)) = false := by
      simpa using hrej
    have hgood : goodGateway env event.data.reference :=
      (verificationRejects_false_iff _).mp hrejf
    exact ⟨⟨_, rfl⟩, fun hng => absurd hgood hng, fun _ => hgood⟩

/-- C2 witness: on a concrete charge.success event with a valid
signature, whose gateway re-verification fails (network error), the
re-verification call heads the effect trace and no confirmation email
is sent. -/
theorem charge_success_reverifies_before_confirmation_witness :
    (∃ rest, (webhookPOST envSucc reqGoodSig).2 =
        Effect.callVerifyTransaction ev1.data.reference :: rest) ∧
    (¬ goodGateway envSucc ev1.data.reference →
      ∀ d, Effect.emailPaymentConfirmation d ∉ (webhookPOST envSucc reqGoodSig).2 ∧
           Effect.emailPaymentReceived d ∉ (webhookPOST envSucc reqGoodSig).2) ∧
    ((∃ d, Effect.emailPaymentConfirmation d ∈ (webhookPOST envSucc reqGoodSig).2 ∨
           Effect.emailPaymentReceived d ∈ (webhookPOST envSucc reqGoodSig).2) →
      goodGateway envSucc ev1.data.reference) :=
  charge_success_reverifies_before_confirmation envSucc reqGoodSig "hx" ev1
    rfl (by decide) rfl rfl

/-- C3 counterexample: a request carrying the correct signature over a
body that fails to parse is answered with status 200, but its body is
the received:true object extended with an error field, not the bare
received:true object, so the claim as stated fails at this input. -/
theorem webhook_ack_body_counterexample :
    verifyPaystackWebhook env0.hmac env0.secretKey reqMalformed.body "hnot json" = true ∧
    reqMalformed.signature = some "hnot json" ∧
    (webhookPOST env0 reqMalformed).1.status = 200 ∧
    (webhookPOST env0 reqMalformed).1.body ≠ ResponseBody.received := by
  exact ⟨by decide, rfl, by decide, by decide⟩

/-- C3 (amended): once signature verification passes the response
status is always 200 and the body carries received:true, except that a
caught processing error (malformed payload) extends the
acknowledgement body with an error field; a non-200 status occurs
exactly for a missing or invalid signature and is then 400. -/
theorem webhook_always_acknowledges_after_valid_signature :
    (∀ env req s, req.signature = some s →
      verifyPaystackWebhook env.hmac env.secretKey req.body s = true →
      (webhookPOST env req).1.status = 200 ∧
        ((webhookPOST env req).1.body = ResponseBody.received ∨
         (webhookPOST env req).1.body = ResponseBody.receivedWithError "Processing error")) ∧
    (∀ env req, (webhookPOST env req).1.status ≠ 200 →
      (webhookPOST env req).1.status = 400 ∧ sigMissingOrInvalid env req) := by
  constructor
  · intro env req s hs hv
    unfold webhookPOST
    rw [hs]
    cases hp : env.parse req.body with
    | none => simp [hv, hp]
    | some event => simp [hv, hp]
  · intro env req h
    cases hsig : req.signature with
    | none =>
      unfold webhookPOST
      rw [hsig]
      exact ⟨rfl, Or.inl hsig⟩
    | some s =>
      by_cases hv : verifyPaystackWebhook env.hmac env.secretKey req.body s = true
      · exfalso
        apply h
        unfold webhookPOST
        rw [hsig]
        cases hp : env.parse req.body with
        | none => simp [hv, hp]
        | some event => simp [hv, hp]
      · have hvf : verifyPaystackWebhook env.hmac env.secretKey req.body s = false := by
          simpa using hv
        unfold webhookPOST
        rw [hsig]
        refine ⟨?_, Or.inr ⟨s, hsig, hvf⟩⟩
        simp [hvf]

/-- C3 witness: the concrete valid-signature request with an
unparseable body is acknowledged with status 200 and one of the two
received:true body shapes. -/
theorem webhook_always_acknowledges_after_valid_signature_witness :
    (webhookPOST env0 reqMalformed).1.status = 200 ∧
      ((webhookPOST env0 reqMalformed).1.body = ResponseBody.received ∨
       (webhookPOST env0 reqMalformed).1.body = ResponseBody.receivedWithError "Processing error") :=
  webhook_always_acknowledges_after_valid_signature.1 env0 reqMalformed "hnot json"
    rfl (by decide)

/-- C4: signature verification returns true exactly when the keyed
digest of the raw payload equals the signature string under exact
string comparison; a request whose signature is the correct digest of
its raw body is accepted with status 200; and the accept or reject
status is unchanged under any change of the payload parser, so
acceptance depends only on the raw bytes and the signature, not on the
content shape. -/
theorem verifyPaystackWebhook_exact_match :
    (∀ (hmac : String → String → String) (key payload sig : String),
      verifyPaystackWebhook hmac key payload sig = true ↔ hmac key payload = sig) ∧
    (∀ (env : Env) (req : WebhookRequest) (s : String),
      req.signature = some s → env.hmac env.secretKey req.body = s →
      (webhookPOST env req).1.status = 200) ∧
    (∀ (env : Env) (p₁ p₂ : String → Option PaystackWebhookEvent) (req : WebhookRequest),
      (webhookPOST { env with parse := p₁ } req).1.status =
        (webhookPOST { env with parse := p₂ } req).1.status) := by
  refine ⟨?_, ?_, ?_⟩
  · intro hmac key payload sig
    simp [verifyPaystackWebhook]
  · intro env req s hs hd
    have hv : verifyPaystackWebhook env.hmac env.secretKey req.body s = true := by
      simp [verifyPaystackWebhook, hd]
    unfold webhookPOST
    rw [hs]
    cases hp : env.parse req.body with
    | none => simp [hv, hp]
    | some event => simp [hv, hp]
  · intro env p₁ p₂ req
    unfold webhookPOST
    cases hsig : req.signature with
    | none => rfl
    | some s =>
      by_cases hv : verifyPaystackWebhook env.hmac env.secretKey req.body s = true
      · cases hp₁ : p₁ req.body with
        | none =>
          cases hp₂ : p₂ req.body with
          | none => simp [hv, hp₁, hp₂]
          | some e₂ => simp [hv, hp₁, hp₂]
        | some e₁ =>
          cases hp₂ : p₂ req.body with
          | none => simp [hv, hp₁, hp₂]
          | some e₂ => simp [hv, hp₁, hp₂]
      · have hvf : verifyPaystackWebhook env.hmac env.secretKey req.body s = false := by
          simpa using hv
        simp [hvf]

/-- C4 witness: the concrete request carrying the correct digest of
its body is accepted with status 200. -/
theorem verifyPaystackWebhook_exact_match_witness :
    (webhookPOST env0 reqGoodSig).1.status = 200 :=
  verifyPaystackWebhook_exact_match.2.1 env0 reqGoodSig "hx" rfl (by decide)

/-- C5 counterexample: at concrete inputs, the missing-header
rejection and the wrong-signature rejection carry the same 400 status
but different bodies, so the two responses are not equal and the
failure cause is revealed to the caller. -/
theorem webhook_rejections_distinguishable :
    (webhookPOST env0 reqNoSig).1.status = (webhookPOST env0 reqBadSig).1.status ∧
    (webhookPOST env0 reqNoSig).1.body ≠ (webhookPOST env0 reqBadSig).1.body := by
  exact ⟨by decide, by decide⟩

/-- C5 (amended): both rejection causes produce the same 400 status
with no processing, but the response bodies are two distinct fixed
error objects (No signature provided versus Invalid signature), so the
endpoint does reveal through the body which cause occurred. -/
theorem webhook_rejections_same_status_distinct_bodies
    (env : Env) (req₁ req₂ : WebhookRequest) (s : String)
    (h₁ : req₁.signature = none)
    (h₂ : req₂.signature = some s)
    (hbad : verifyPaystackWebhook env.hmac env.secretKey req₂.body s = false) :
    (webhookPOST env req₁).1.status = 400 ∧
    (webhookPOST env req₂).1.status = 400 ∧
    (webhookPOST env req₁).2 = [] ∧ (webhookPOST env req₂).2 = [] ∧
    (webhookPOST env req₁).1.body = ResponseBody.errorMsg "No signature provided" ∧
    (webhookPOST env req₂).1.body = ResponseBody.errorMsg "Invalid signature" := by
  unfold webhookPOST
  rw [h₁, h₂]
  simp [hbad]

/-- C5 witness: the amended statement at the two concrete rejected
requests. -/
theorem webhook_rejections_same_status_distinct_bodies_witness :
    (webhookPOST env0 reqNoSig).1.status = 400 ∧
    (webhookPOST env0 reqBadSig).1.status = 400 ∧
    (webhookPOST env0 reqNoSig).2 = [] ∧ (webhookPOST env0 reqBadSig).2 = [] ∧
    (webhookPOST env0 reqNoSig).1.body = ResponseBody.errorMsg "No signature provided" ∧
    (webhookPOST env0 reqBadSig).1.body = ResponseBody.errorMsg "Invalid signature" :=
  webhook_rejections_same_status_distinct_bodies env0 reqNoSig reqBadSig "bad"
    rfl rfl (by decide)

def bodyNoPhone : SubscribeBody :=
  { name := some "Ada Lovelace", email := some "ada@example.com",
    phone := none, bodyGoals := none, referralName := none }

def bodyEmptyPhone : SubscribeBody :=
  { name := some "Ada Lovelace", email := some "ada@example.com",
    phone := some "", bodyGoals := none, referralName := none }

/-- C7: a subscribe request whose parsed body lacks the name, the
email or the phone field is answered with the 400 Missing required
fields error and performs no external call: the gateway initialization
is never invoked and no email is sent. -/
theorem subscribe_missing_field_rejected
    (env : Env) (b : SubscribeBody)
    (h : b.name = none ∨ b.email = none ∨ b.phone = none) :
    subscribePOST env (some b) =
      ({ status := 400, body := ResponseBody.errorMsg "Missing required fields" }, []) := by
  rcases h with h | h | h <;> simp [subscribePOST, truthy, h]

/-- C7 witness: the concrete body with no phone field is rejected with
status 400 and an empty effect trace. -/
theorem subscribe_missing_field_rejected_witness :
    subscribePOST env0 (some bodyNoPhone) =
      ({ status := 400, body := ResponseBody.errorMsg "Missing required fields" }, []) :=
  subscribe_missing_field_rejected env0 bodyNoPhone (Or.inr (Or.inr rfl))

/-- C8: every notification function catches a provider failure and
returns false instead of throwing (and returns true when the provider
accepts the send), and the webhook response and effect trace are
identical whatever the email-send oracle is, so an email failure can
never change the acknowledgement status or body. -/
theorem email_failures_swallowed_and_invisible :
    (∀ e d, sendPaymentConfirmationEmail (fun _ => Except.error e) d = false) ∧
    (∀ e a d, sendPaymentReceivedNotification a (fun _ => Except.error e) d = false) ∧
    (∀ e d, sendPaymentFailedEmail (fun _ => Except.error e) d = false) ∧
    (∀ e d, sendSubscriptionInitiatedEmail (fun _ => Except.error e) d = false) ∧
    (∀ e a d, sendNewSubscriptionNotification a (fun _ => Except.error e) d = false) ∧
    (∀ d, sendPaymentConfirmationEmail (fun _ => Except.ok ()) d = true) ∧
    (∀ (env : Env) (send₁ send₂ : EmailMessage → Except String Unit) (req : WebhookRequest),
      webhookPOST { env with emailSend := send₁ } req =
        webhookPOST { env with emailSend := send₂ } req) := by
  refine ⟨fun e d => rfl, fun e a d => rfl, fun e d => rfl, fun e d => rfl,
    fun e a d => rfl, fun d => rfl, ?_⟩
  intro env send₁ send₂ req
  rfl

/-- C9: for a charge.failed webhook event that passes signature
verification, the only external call is the payment-failed email,
built purely from the webhook payload: the gateway re-verification is
never invoked on this path, the handler produces the same effect trace
under every environment, and the reason falls back to the fixed string
when gateway_response is absent or empty. -/
theorem charge_failed_uses_payload_only
    (env : Env) (req : WebhookRequest) (s : String) (event : PaystackWebhookEvent)
    (hs : req.signature = some s)
    (hv : verifyPaystackWebhook env.hmac env.secretKey req.body s = true)
    (hp : env.parse req.body = some event)
    (he : event.event = "charge.failed") :
    (webhookPOST env req).2 = [Effect.emailPaymentFailed (failedEmailDataOf event)] ∧
    (∀ r, Effect.callVerifyTransaction r ∉ (webhookPOST env req).2) ∧
    (event.data.gateway_response = none ∨ event.data.gateway_response = some "" →
      (failedEmailDataOf event).reason = "Payment could not be processed") ∧
    (∀ env₂ : Env, handlePaymentFailed env₂ event = handlePaymentFailed env event) := by
  have hpost := webhookPOST_valid env req s hs hv event hp
  rw [hpost, dispatch_failed env event he]
  refine ⟨rfl, ?_, ?_, fun env₂ => rfl⟩
  · intro r
    simp [handlePaymentFailed]
  · rintro (hg | hg) <;> simp [failedEmailDataOf, jsOrOpt, hg]

/-- C9 witness: on a concrete charge.failed event with a valid
signature and an empty gateway_response, the effect trace is exactly
the payment-failed email and contains no re-verification call. -/
theorem charge_failed_uses_payload_only_witness :
    (webhookPOST envFail reqGoodSig).2 =
      [Effect.emailPaymentFailed (failedEmailDataOf ev2)] ∧
    (∀ r, Effect.callVerifyTransaction r ∉ (webhookPOST envFail reqGoodSig).2) ∧
    (ev2.data.gateway_response = none ∨ ev2.data.gateway_response = some "" →
      (failedEmailDataOf ev2).reason = "Payment could not be processed") ∧
    (∀ env₂ : Env, handlePaymentFailed env₂ ev2 = handlePaymentFailed envFail ev2) :=
  charge_failed_uses_payload_only envFail reqGoodSig "hx" ev2 rfl (by decide) rfl rfl

/-- C10: an empty string in the name, email or phone field of a
subscribe request is treated exactly like an absent field: the request
is rejected with the 400 Missing required fields error before any
external call, and its response and effects coincide with those of the
request with all three fields absent. -/
theorem subscribe_empty_string_like_absent
    (env : Env) (b : SubscribeBody)
    (h : b.name = some "" ∨ b.email = some "" ∨ b.phone = some "") :
    subscribePOST env (some b) =
      ({ status := 400, body := ResponseBody.errorMsg "Missing required fields" }, []) ∧
    subscribePOST env (some b) =
      subscribePOST env (some { name := none, email := none, phone := none,
                                bodyGoals := b.bodyGoals, referralName := b.referralName }) := by
  have h400 : subscribePOST env (some b) =
      ({ status := 400, body := ResponseBody.errorMsg "Missing required fields" }, []) := by
    rcases h with h | h | h <;> simp [subscribePOST, truthy, h]
  exact ⟨h400, h400.trans (by simp [subscribePOST, truthy])⟩

/-- C10 witness: the concrete body whose phone field is present but
empty is rejected with status 400, no effects, and the same result as
the all-absent body. -/
theorem subscribe_empty_string_like_absent_witness :
    subscribePOST env0 (some bodyEmptyPhone) =
      ({ status := 400, body := ResponseBody.errorMsg "Missing required fields" }, []) ∧
    subscribePOST env0 (some bodyEmptyPhone) =
      subscribePOST env0 (some { name := none, email := none, phone := none,
                                 bodyGoals := bodyEmptyPhone.bodyGoals,
                                 referralName := bodyEmptyPhone.referralName }) :=
  subscribe_empty_string_like_absent env0 bodyEmptyPhone (Or.inr (Or.inr rfl))
